import Mathlib

/-!
# Verification of the nano-agent terminal UI core

Shallow embedding of the interactive-terminal runtime of the nano-agent
repository: the message-list scrollback model (`cli/messages.py`,
`cli/message_list.py`), the interactive elements (`cli/elements/base.py`,
`text_prompt.py`, `menu_select.py`, `cancellation_menu.py`,
`confirm_prompt.py`), the footer element manager
(`cli/elements/footer_manager.py`) and the cooperative cancellation token
(`nano_agent/cancellation.py`).

Python strings are modelled as lists of characters (`Str`), Python `float`
durations as rationals, `set[int]` as `Finset ℕ`, and in-place mutation as
state-passing functions.  Dataclass methods keep their source names.
-/

namespace NanoAgent

/-- A Python `str`, modelled as its sequence of code points. -/
abbrev Str := List Char

/-- `InputEvent` from `cli/elements/base.py`: `key` is the symbolic key name
(`"Enter"`, `"Escape"`, `"Char"`, ...), `char` the optional printable
character (or pasted text), `ctrl` the control-modifier flag. -/
structure InputEvent where
  key : String
  char : Option Str
  ctrl : Bool := false
deriving DecidableEq

/-! ## Message model (`cli/messages.py`) -/

/-- `MessageStatus` enum from `cli/messages.py`. -/
inductive MessageStatus where
  | PENDING
  | ACTIVE
  | COMPLETE
  | ERROR
deriving DecidableEq

/-- `RenderItem.content` is `str | RenderableType` in the source; rich
renderables are opaque to all message-list logic, so they are carried as an
identifier. -/
inductive RenderContent where
  | ofString : Str → RenderContent
  | rich : Nat → RenderContent
deriving DecidableEq

/-- `RenderItem` dataclass from `cli/messages.py`. -/
structure RenderItem where
  content : RenderContent
  style : Str := []
  is_transient : Bool := false
deriving DecidableEq

/-- `UIMessage` dataclass from `cli/messages.py`.  The `input_handler`
protocol object is opaque to the message logic and is modelled by an
identifier; `metadata` is an association list. -/
structure UIMessage where
  id : Str := []
  message_type : Str := []
  output_buffer : List RenderItem := []
  input_handler : Option Nat := none
  status : MessageStatus := .PENDING
  metadata : List (Str × Str) := []
deriving DecidableEq

/-- `UIMessage.append`: add content to the output buffer. -/
def UIMessage.append (m : UIMessage) (content : RenderContent) (style : Str := []) :
    UIMessage :=
  { m with output_buffer := m.output_buffer ++ [{ content := content, style := style }] }

/-- `UIMessage.append_newline`: add a blank line to the output buffer. -/
def UIMessage.append_newline (m : UIMessage) : UIMessage :=
  { m with output_buffer := m.output_buffer ++ [{ content := .ofString [] }] }

/-- `UIMessage.set_transient`: drop previous transient items, then append the
new content marked transient. -/
def UIMessage.set_transient (m : UIMessage) (content : RenderContent) (style : Str := []) :
    UIMessage :=
  { m with output_buffer :=
      m.output_buffer.filter (fun r => !r.is_transient) ++
        [{ content := content, style := style, is_transient := true }] }

/-- `UIMessage.clear_transient`: remove transient items. -/
def UIMessage.clear_transient (m : UIMessage) : UIMessage :=
  { m with output_buffer := m.output_buffer.filter (fun r => !r.is_transient) }

/-- `UIMessage.freeze`: mark complete, remove the input handler, clear
transient items. -/
def UIMessage.freeze (m : UIMessage) : UIMessage :=
  ({ m with status := .COMPLETE, input_handler := none } : UIMessage).clear_transient

/-- `UIMessage.is_frozen`. -/
def UIMessage.is_frozen (m : UIMessage) : Bool :=
  m.status == .COMPLETE

/-! ## Message list (`cli/message_list.py`) -/

/-- `MessageList` dataclass: the ordered scrollback. -/
structure MessageList where
  messages : List UIMessage := []
deriving DecidableEq

/-- Freeze the last element of a message list in place (the effect of
`self.messages[-1].freeze()` in `MessageList.add`). -/
def freezeLastMessage : List UIMessage → List UIMessage
  | [] => []
  | [m] => [m.freeze]
  | m :: rest => m :: freezeLastMessage rest

/-- `MessageList.add`: freeze the previous last message (if any), set the new
message's status to `ACTIVE`, and append it. -/
def MessageList.add (ml : MessageList) (msg : UIMessage) : MessageList :=
  { messages := freezeLastMessage ml.messages ++ [{ msg with status := .ACTIVE }] }

/-- `MessageList.get_active`: the last message, if any. -/
def MessageList.get_active (ml : MessageList) : Option UIMessage :=
  ml.messages.getLast?

/-- `MessageList.clear`: remove all messages. -/
def MessageList.clear (_ : MessageList) : MessageList :=
  { messages := [] }

/-- The operations on a `MessageList` considered by the invariant claims. -/
inductive MessageListOp where
  | add : UIMessage → MessageListOp
  | clear : MessageListOp

/-- Apply one operation to a message list. -/
def MessageList.applyOp (ml : MessageList) : MessageListOp → MessageList
  | .add m => ml.add m
  | .clear => ml.clear

/-- Apply a sequence of operations to a message list. -/
def MessageList.applyOps (ml : MessageList) (ops : List MessageListOp) : MessageList :=
  ops.foldl MessageList.applyOp ml

/-! ## Text prompts (`cli/elements/text_prompt.py`) -/

/-- ASCII fragment of Python `str.isspace` for a single character, used by
the word-kill editing command. -/
def pyIsSpace (c : Char) : Bool :=
  c ∈ [' ', '\t', '\n', '\r', '\x0b', '\x0c']

/-- ASCII fragment of Python `str.isprintable` (control characters are not
printable).  Only the final fallback branch of `handle_input` consults it. -/
def pyIsPrintable (s : Str) : Bool :=
  s.all (fun c => 32 ≤ c.toNat && c.toNat != 127)

/-- Python truthiness of an optional string (`event.char and ...`). -/
def charTruthy : Option Str → Bool
  | none => false
  | some s => !s.isEmpty

/-- Sequential effect of `text.replace("\r\n", "\n").replace("\r", "\n")`. -/
def normalizeNewlines : Str → Str
  | [] => []
  | '\r' :: '\n' :: rest => '\n' :: normalizeNewlines rest
  | '\r' :: rest => '\n' :: normalizeNewlines rest
  | c :: rest => c :: normalizeNewlines rest

/-- The index computed by the two scan-left loops of `_delete_prev_word`:
first skip whitespace leftwards from `i`, then skip the word itself. -/
def wordKillIndex (buf : Str) (i : Nat) : Nat :=
  skipWord (skipSpaces i)
where
  skipSpaces : Nat → Nat
    | 0 => 0
    | j + 1 => if pyIsSpace (buf.getD j ' ') then skipSpaces j else j + 1
  skipWord : Nat → Nat
    | 0 => 0
    | j + 1 => if !pyIsSpace (buf.getD j ' ') then skipWord j else j + 1

/-- `TextPrompt` dataclass state. -/
structure TextPrompt where
  prompt : Str := "> ".toList
  buffer : Str := []
  cursor_pos : Nat := 0
  cursor_char : Str := "█".toList
  kill_buffer : Str := []
deriving DecidableEq

/-- `TextPrompt._insert_char` (also used to re-insert the kill buffer). -/
def TextPrompt.insert_char (s : TextPrompt) (ch : Str) : TextPrompt :=
  { s with
    buffer := s.buffer.take s.cursor_pos ++ ch ++ s.buffer.drop s.cursor_pos
    cursor_pos := s.cursor_pos + ch.length }

/-- `TextPrompt._insert_text`. -/
def TextPrompt.insert_text (s : TextPrompt) (text : Str) : TextPrompt :=
  { s with
    buffer := s.buffer.take s.cursor_pos ++ text ++ s.buffer.drop s.cursor_pos
    cursor_pos := s.cursor_pos + text.length }

/-- `TextPrompt._normalize_paste`: normalize line endings, then replace
newlines by spaces (single-line prompt). -/
def TextPrompt.normalize_paste (_ : TextPrompt) (text : Str) : Str :=
  (normalizeNewlines text).map (fun c => if c = '\n' then ' ' else c)

/-- `TextPrompt._delete_before_cursor`. -/
def TextPrompt.delete_before_cursor (s : TextPrompt) : TextPrompt :=
  if s.cursor_pos > 0 then
    { s with
      buffer := s.buffer.take (s.cursor_pos - 1) ++ s.buffer.drop s.cursor_pos
      cursor_pos := s.cursor_pos - 1 }
  else s

/-- `TextPrompt._delete_prev_word`. -/
def TextPrompt.delete_prev_word (s : TextPrompt) : TextPrompt :=
  if s.cursor_pos = 0 then s
  else
    let i := wordKillIndex s.buffer s.cursor_pos
    { s with
      kill_buffer := (s.buffer.take s.cursor_pos).drop i
      buffer := s.buffer.take i ++ s.buffer.drop s.cursor_pos
      cursor_pos := i }

/-- `TextPrompt.handle_input`: returns the new state together with the
`(done, result)` pair of the source.  The `elif` chain is mirrored in source
order. -/
def TextPrompt.handle_input (s : TextPrompt) (e : InputEvent) :
    TextPrompt × Bool × Option Str :=
  if e.key == "Enter" then
    ({ s with buffer := [], cursor_pos := 0 }, true, some s.buffer)
  else if e.key == "ShiftEnter" then
    (s, false, none)
  else if e.key == "Paste" && charTruthy e.char then
    (s.insert_text (s.normalize_paste (e.char.getD [])), false, none)
  else if e.ctrl && e.char == some ['a'] then
    ({ s with cursor_pos := 0 }, false, none)
  else if e.ctrl && e.char == some ['e'] then
    ({ s with cursor_pos := s.buffer.length }, false, none)
  else if e.ctrl && e.char == some ['b'] then
    (if s.cursor_pos > 0 then { s with cursor_pos := s.cursor_pos - 1 } else s, false, none)
  else if e.ctrl && e.char == some ['f'] then
    (if s.cursor_pos < s.buffer.length then { s with cursor_pos := s.cursor_pos + 1 } else s,
      false, none)
  else if e.ctrl && e.char == some ['w'] then
    (s.delete_prev_word, false, none)
  else if e.ctrl && e.char == some ['k'] then
    ({ s with
        kill_buffer := s.buffer.drop s.cursor_pos
        buffer := s.buffer.take s.cursor_pos }, false, none)
  else if e.ctrl && e.char == some ['u'] then
    ({ s with
        kill_buffer := s.buffer.take s.cursor_pos
        buffer := s.buffer.drop s.cursor_pos
        cursor_pos := 0 }, false, none)
  else if e.ctrl && e.char == some ['y'] then
    (if !s.kill_buffer.isEmpty then s.insert_char s.kill_buffer else s, false, none)
  else if e.ctrl && e.char == some ['l'] then
    ({ s with buffer := [], cursor_pos := 0 }, false, none)
  else if e.ctrl && e.char == some ['j'] then
    (s, false, none)
  else if e.key == "Escape" || (e.ctrl && e.char == some ['c']) then
    ({ s with buffer := [], cursor_pos := 0 }, true, some [])
  else if e.key == "Backspace" then
    (s.delete_before_cursor, false, none)
  else if e.key == "Left" then
    (if s.cursor_pos > 0 then { s with cursor_pos := s.cursor_pos - 1 } else s, false, none)
  else if e.key == "Right" then
    (if s.cursor_pos < s.buffer.length then { s with cursor_pos := s.cursor_pos + 1 } else s,
      false, none)
  else if charTruthy e.char && pyIsPrintable (e.char.getD []) then
    (s.insert_char (e.char.getD []), false, none)
  else
    (s, false, none)

/-- `MultiLinePrompt` dataclass state. -/
structure MultiLinePrompt where
  prompt : Str := "> ".toList
  buffer : Str := []
  cursor_pos : Nat := 0
  cursor_char : Str := "█".toList
  allow_multiline : Bool := true
  kill_buffer : Str := []
deriving DecidableEq

/-- `MultiLinePrompt._insert_char`. -/
def MultiLinePrompt.insert_char (s : MultiLinePrompt) (ch : Str) : MultiLinePrompt :=
  { s with
    buffer := s.buffer.take s.cursor_pos ++ ch ++ s.buffer.drop s.cursor_pos
    cursor_pos := s.cursor_pos + ch.length }

/-- `MultiLinePrompt._insert_text`. -/
def MultiLinePrompt.insert_text (s : MultiLinePrompt) (text : Str) : MultiLinePrompt :=
  { s with
    buffer := s.buffer.take s.cursor_pos ++ text ++ s.buffer.drop s.cursor_pos
    cursor_pos := s.cursor_pos + text.length }

/-- `MultiLinePrompt._normalize_paste`: normalize line endings only. -/
def MultiLinePrompt.normalize_paste (_ : MultiLinePrompt) (text : Str) : Str :=
  normalizeNewlines text

/-- `MultiLinePrompt._delete_before_cursor`. -/
def MultiLinePrompt.delete_before_cursor (s : MultiLinePrompt) : MultiLinePrompt :=
  if s.cursor_pos > 0 then
    { s with
      buffer := s.buffer.take (s.cursor_pos - 1) ++ s.buffer.drop s.cursor_pos
      cursor_pos := s.cursor_pos - 1 }
  else s

/-- `MultiLinePrompt._delete_prev_word`. -/
def MultiLinePrompt.delete_prev_word (s : MultiLinePrompt) : MultiLinePrompt :=
  if s.cursor_pos = 0 then s
  else
    let i := wordKillIndex s.buffer s.cursor_pos
    { s with
      kill_buffer := (s.buffer.take s.cursor_pos).drop i
      buffer := s.buffer.take i ++ s.buffer.drop s.cursor_pos
      cursor_pos := i }

/-- `MultiLinePrompt.handle_input`.  The backslash check on Enter indexes
`buffer[cursor_pos - 1]`, which the two guards before it keep in range; the
total model reads it with `getD` and a default that is not a backslash. -/
def MultiLinePrompt.handle_input (s : MultiLinePrompt) (e : InputEvent) :
    MultiLinePrompt × Bool × Option Str :=
  if e.key == "Enter" then
    if s.allow_multiline && s.cursor_pos == s.buffer.length && s.cursor_pos > 0 &&
        s.buffer.getD (s.cursor_pos - 1) ' ' == '\\' then
      (s.delete_before_cursor.insert_char ['\n'], false, none)
    else
      ({ s with buffer := [], cursor_pos := 0 }, true, some s.buffer)
  else if e.key == "ShiftEnter" then
    (if s.allow_multiline then s.insert_char ['\n'] else s, false, none)
  else if e.key == "Paste" && charTruthy e.char then
    let pasted := s.normalize_paste (e.char.getD [])
    let pasted := if !s.allow_multiline then
        pasted.map (fun c => if c = '\n' then ' ' else c)
      else pasted
    (s.insert_text pasted, false, none)
  else if e.ctrl && e.char == some ['a'] then
    ({ s with cursor_pos := 0 }, false, none)
  else if e.ctrl && e.char == some ['e'] then
    ({ s with cursor_pos := s.buffer.length }, false, none)
  else if e.ctrl && e.char == some ['b'] then
    (if s.cursor_pos > 0 then { s with cursor_pos := s.cursor_pos - 1 } else s, false, none)
  else if e.ctrl && e.char == some ['f'] then
    (if s.cursor_pos < s.buffer.length then { s with cursor_pos := s.cursor_pos + 1 } else s,
      false, none)
  else if e.ctrl && e.char == some ['w'] then
    (s.delete_prev_word, false, none)
  else if e.ctrl && e.char == some ['k'] then
    ({ s with
        kill_buffer := s.buffer.drop s.cursor_pos
        buffer := s.buffer.take s.cursor_pos }, false, none)
  else if e.ctrl && e.char == some ['u'] then
    ({ s with
        kill_buffer := s.buffer.take s.cursor_pos
        buffer := s.buffer.drop s.cursor_pos
        cursor_pos := 0 }, false, none)
  else if e.ctrl && e.char == some ['y'] then
    (if !s.kill_buffer.isEmpty then s.insert_char s.kill_buffer else s, false, none)
  else if e.ctrl && e.char == some ['l'] then
    ({ s with buffer := [], cursor_pos := 0 }, false, none)
  else if e.ctrl && e.char == some ['j'] then
    (s, false, none)
  else if e.key == "Escape" || (e.ctrl && e.char == some ['c']) then
    ({ s with buffer := [], cursor_pos := 0 }, true, some [])
  else if e.ctrl && e.char == some ['d'] then
    ({ s with buffer := [], cursor_pos := 0 }, true, none)
  else if e.key == "Backspace" then
    (s.delete_before_cursor, false, none)
  else if e.key == "Left" then
    (if s.cursor_pos > 0 then { s with cursor_pos := s.cursor_pos - 1 } else s, false, none)
  else if e.key == "Right" then
    (if s.cursor_pos < s.buffer.length then { s with cursor_pos := s.cursor_pos + 1 } else s,
      false, none)
  else if charTruthy e.char && pyIsPrintable (e.char.getD []) then
    (s.insert_char (e.char.getD []), false, none)
  else
    (s, false, none)

/-- An Enter keypress. -/
def enterEvent : InputEvent := { key := "Enter", char := none }

/-- An Escape keypress. -/
def escapeEvent : InputEvent := { key := "Escape", char := none }

/-- A plain character keypress. -/
def charEvent (c : Char) : InputEvent := { key := "Char", char := some [c] }

/-- A control-modified character keypress. -/
def ctrlEvent (c : Char) : InputEvent := { key := "Char", char := some [c], ctrl := true }

/-! ## Menu selection (`cli/elements/menu_select.py`) -/

/-- Result type of `MenuSelect.handle_input`: `str | list[str]` (with `None`
modelled by the surrounding `Option`). -/
inductive MenuResult where
  | one : Str → MenuResult
  | many : List Str → MenuResult
deriving DecidableEq

/-- `MenuSelect` dataclass state.  `selected_indices` is a Python `set[int]`,
modelled as a `Finset ℕ`.  `selected` is kept as a natural number: the source
lets `min(selected + 1, len(options) - 1)` reach `-1` only when `options` is
empty, a state the menu is never constructed in. -/
structure MenuSelect where
  title : Str := "Select:".toList
  options : List Str := []
  selected : Nat := 0
  multi_select : Bool := false
  selected_indices : Finset ℕ := ∅
deriving DecidableEq

/-- `MenuSelect.handle_input`. -/
def MenuSelect.handle_input (s : MenuSelect) (e : InputEvent) :
    MenuSelect × Bool × Option MenuResult :=
  if e.key == "Enter" then
    if s.options.isEmpty then
      (s, true, none)
    else if s.multi_select then
      let indices := if s.selected_indices = ∅ then
          insert s.selected s.selected_indices
        else s.selected_indices
      let chosen := ((List.range s.options.length).filter
          (fun i => decide (i ∈ indices))).map (fun i => s.options.getD i [])
      ({ s with selected_indices := indices }, true, some (.many chosen))
    else
      (s, true, some (.one (s.options.getD s.selected [])))
  else if e.key == "Escape" || (e.ctrl && e.char == some ['c']) then
    (s, true, none)
  else if s.multi_select && e.char == some [' '] then
    if s.selected ∈ s.selected_indices then
      ({ s with selected_indices := s.selected_indices.erase s.selected }, false, none)
    else
      ({ s with selected_indices := insert s.selected s.selected_indices }, false, none)
  else if e.char == some ['j'] || e.key == "Down" then
    ({ s with selected := min (s.selected + 1) (s.options.length - 1) }, false, none)
  else if e.char == some ['k'] || e.key == "Up" then
    ({ s with selected := s.selected - 1 }, false, none)
  else
    (s, false, none)

/-! ## Cancellation menu (`cli/elements/cancellation_menu.py`) -/

/-- `CancellationChoice` enum.  Modelled from the spec: its defining module is
not among the provided sources; the four members are fixed by §3 of the spec
and by every use in `cancellation_menu.py`. -/
inductive CancellationChoice where
  | RETRY
  | SKIP
  | KEEP_COMPLETED
  | UNDO_ALL
deriving DecidableEq

/-- `ToolExecutionStatus` enum.  Modelled from the spec: its defining module
is not among the provided sources; the members are listed in §3 of the
spec. -/
inductive ToolExecutionStatus where
  | PENDING
  | RUNNING
  | COMPLETED
  | FAILED
  | CANCELLED
  | SKIPPED
deriving DecidableEq

/-- `TrackedToolCall`.  Modelled from the spec: `{id, name, input, status,
result, error}`; only the fields read by the cancellation menu are kept. -/
structure TrackedToolCall where
  id : Str := []
  name : Str := []
  input : Str := []
  status : ToolExecutionStatus := .PENDING
deriving DecidableEq

/-- `ToolExecutionBatch`.  Modelled from the spec: a batch of tracked tool
calls with the index at which cancellation struck.  The menu's input handling
never reads it. -/
structure ToolExecutionBatch where
  tools : List TrackedToolCall := []
  cancelled_at_index : Option Nat := none
deriving DecidableEq

/-- `CancellationMenu` dataclass state.  `choices` models `_choices`, which
`__post_init__` always sets to the four resolutions in this order. -/
structure CancellationMenu where
  batch : ToolExecutionBatch := {}
  selected : Nat := 0
  choices : List CancellationChoice :=
    [.RETRY, .SKIP, .KEEP_COMPLETED, .UNDO_ALL]
deriving DecidableEq

/-- The single-letter shortcut lookup of `CancellationMenu.handle_input`:
uppercase the (truthy) event character and look it up among `R/S/K/U`. -/
def shortcutChoice : Option Str → Option CancellationChoice
  | none => none
  | some cs =>
    if cs.isEmpty then none
    else
      match cs.map Char.toUpper with
      | ['R'] => some .RETRY
      | ['S'] => some .SKIP
      | ['K'] => some .KEEP_COMPLETED
      | ['U'] => some .UNDO_ALL
      | _ => none

/-- `CancellationMenu.handle_input`.  `self._choices[self.selected]` on Enter
is read with `getD`; navigation keeps `selected` within the four choices. -/
def CancellationMenu.handle_input (s : CancellationMenu) (e : InputEvent) :
    CancellationMenu × Bool × Option CancellationChoice :=
  if e.key == "Enter" then
    if !s.choices.isEmpty then
      (s, true, some (s.choices.getD s.selected .UNDO_ALL))
    else
      (s, true, none)
  else if e.key == "Escape" || (e.ctrl && e.char == some ['c']) then
    (s, true, some .UNDO_ALL)
  else
    match shortcutChoice e.char with
    | some choice => (s, true, some choice)
    | none =>
      if e.char == some ['j'] || e.key == "Down" then
        ({ s with selected := min (s.selected + 1) (s.choices.length - 1) }, false, none)
      else if e.char == some ['k'] || e.key == "Up" then
        ({ s with selected := s.selected - 1 }, false, none)
      else
        (s, false, none)

/-! ## Confirm prompt (`cli/elements/confirm_prompt.py`) -/

/-- `ConfirmPrompt` dataclass state. -/
structure ConfirmPrompt where
  message : Str := "Confirm?".toList
  preview_lines : List Str := []
  max_preview_lines : Nat := 10
  response : Str := []
deriving DecidableEq

/-- `ConfirmPrompt.handle_input`: lowercase the event character, accept
`y`/`n`, Escape or Ctrl+C. -/
def ConfirmPrompt.handle_input (s : ConfirmPrompt) (e : InputEvent) :
    ConfirmPrompt × Bool × Option Bool :=
  let char := (e.char.getD []).map Char.toLower
  if char == ['y'] then
    ({ s with response := ['y'] }, true, some true)
  else if char == ['n'] then
    ({ s with response := ['n'] }, true, some false)
  else if e.key == "Escape" || (e.ctrl && e.char == some ['c']) then
    ({ s with response := "esc".toList }, true, none)
  else
    (s, false, none)

/-! ## Completion delays (`cli/elements/base.py`)

`ActiveElement.completion_delay` returns `0.15` seconds by default; none of
the element classes under `cli/elements/` overrides it, so each inherits the
default. -/

/-- The base-class default of `ActiveElement.completion_delay`, in seconds. -/
def completionDelayDefault : ℚ := 0.15

/-- `TextPrompt.completion_delay` (inherited from `ActiveElement`). -/
def TextPrompt.completion_delay (_ : TextPrompt) : ℚ := completionDelayDefault

/-- `MultiLinePrompt.completion_delay` (inherited from `ActiveElement`). -/
def MultiLinePrompt.completion_delay (_ : MultiLinePrompt) : ℚ := completionDelayDefault

/-- `ConfirmPrompt.completion_delay` (inherited from `ActiveElement`). -/
def ConfirmPrompt.completion_delay (_ : ConfirmPrompt) : ℚ := completionDelayDefault

/-- `MenuSelect.completion_delay` (inherited from `ActiveElement`). -/
def MenuSelect.completion_delay (_ : MenuSelect) : ℚ := completionDelayDefault

/-- `CancellationMenu.completion_delay` (inherited from `ActiveElement`). -/
def CancellationMenu.completion_delay (_ : CancellationMenu) : ℚ := completionDelayDefault

/-! ## Cancellation token (`nano_agent/cancellation.py`)

The token's `_event` flag and `_current_task` handle are the state; the
coroutine handed to `run` is a unit of work with an opaque task identity and
one of three completions (return, exception, abort).  `run` is modelled as a
function from the pre-state to a trace: whether the work was started, the
token state while the task is awaited, the outcome surfaced to the caller,
and the token state after the `finally` block. -/

/-- `CancellationToken` state: the `_event` flag and the `_current_task`
handle (opaque task identity). -/
structure CancellationToken where
  cancelled : Bool := false
  current_task : Option Nat := none
deriving DecidableEq

/-- `CancellationToken.is_cancelled`. -/
def CancellationToken.is_cancelled (t : CancellationToken) : Bool :=
  t.cancelled

/-- `CancellationToken.cancel`: set the flag.  (The source additionally
requests the in-flight task's abort; that effect lands on the task, not on
the token state, and is reported by `cancelRequestsAbort`.) -/
def CancellationToken.cancel (t : CancellationToken) : CancellationToken :=
  { t with cancelled := true }

/-- Whether `cancel()` would also request an abort of an in-flight task
(`if self._current_task and not self._current_task.done()`). -/
def CancellationToken.cancelRequestsAbort (t : CancellationToken) : Bool :=
  t.current_task.isSome

/-- `CancellationToken.reset`: clear the flag and detach the tracked task. -/
def CancellationToken.reset (_ : CancellationToken) : CancellationToken :=
  { cancelled := false, current_task := none }

/-- How the wrapped unit of work completes once started. -/
inductive WorkOutcome where
  | success : Nat → WorkOutcome
  | failure : WorkOutcome
  | aborted : WorkOutcome
deriving DecidableEq

/-- A unit of work handed to `run`: the task created for it and its
completion. -/
structure Work where
  taskId : Nat := 0
  outcome : WorkOutcome := .success 0
deriving DecidableEq

/-- What `run` surfaces to the awaiting caller. -/
inductive RunResult where
  | cancelledBeforeStart
  | ok : Nat → RunResult
  | exn : RunResult
  | abortedInFlight : RunResult
deriving DecidableEq

/-- The observable trace of one `run` call. -/
structure RunTrace where
  started : Bool
  duringToken : CancellationToken
  result : RunResult
  finalToken : CancellationToken
deriving DecidableEq

/-- `CancellationToken.run`: raise `CancelledError` up front when already
cancelled; otherwise wrap the work as a task, record it in `_current_task`,
await it, and clear `_current_task` in the `finally` block. -/
def CancellationToken.run (t : CancellationToken) (w : Work) : RunTrace :=
  if t.cancelled then
    { started := false, duringToken := t, result := .cancelledBeforeStart, finalToken := t }
  else
    let during : CancellationToken := { t with current_task := some w.taskId }
    let res : RunResult :=
      match w.outcome with
      | .success v => .ok v
      | .failure => .exn
      | .aborted => .abortedInFlight
    { started := true, duringToken := during, result := res
      finalToken := { during with current_task := none } }

/-- The trigger-side operations on a token considered by the claims. -/
inductive TokenOp where
  | cancel
  | reset
deriving DecidableEq

/-- Apply one trigger operation. -/
def CancellationToken.applyOp (t : CancellationToken) : TokenOp → CancellationToken
  | .cancel => t.cancel
  | .reset => t.reset

/-- Apply a sequence of trigger operations. -/
def CancellationToken.applyOps (t : CancellationToken) (ops : List TokenOp) :
    CancellationToken :=
  ops.foldl CancellationToken.applyOp t

/-! ## Footer element manager (`cli/elements/footer_manager.py`)

`TerminalFooter` and `RawInputReader` are external to the manager's logic;
their calls are recorded as effects in a trace.  A standard element is given
by its initial state, its pure `get_lines`/`handle_input` methods and its
completion delay; the manager's input loop consumes a (finite) list of
incoming events. -/

/-- A side effect the manager performs on the element, the input reader or
the footer, in order. -/
inductive MgrEffect where
  | elemOnActivate
  | elemRunAsync
  | inputStart
  | footerActivate
  | setContent : List Str → MgrEffect
  | inputFlush
  | inputRead : InputEvent → MgrEffect
  | sleepDelay : ℚ → MgrEffect
  | inputStop
  | elemOnDeactivate
deriving DecidableEq

/-- The pure behaviour of an `ActiveElement[T]` with state type `σ`, as the
manager consumes it. -/
structure ElementImpl (σ T : Type) where
  init : σ
  is_self_managed : Bool := false
  run_async_result : T
  get_lines : σ → List Str
  handle_input : σ → InputEvent → σ × Bool × Option T
  completion_delay : ℚ := completionDelayDefault

/-- Manager-visible state: whether `self._active` is set and whether the
footer is active. -/
structure ManagerState where
  elementActive : Bool := false
  footerActive : Bool := false
deriving DecidableEq

/-- Outcome of one `FooterElementManager.run` call. -/
inductive ElementRunOutcome (T : Type) where
  | errorAlreadyActive
  | completed : Option T → ElementRunOutcome T
  | awaitingInput
deriving DecidableEq

/-- The manager's input loop: read one event, hand it to the element,
re-render only while not done, and sleep the completion delay on completion.
With no events left the loop is suspended awaiting input. -/
def managerLoop {σ T : Type} (elem : ElementImpl σ T) :
    σ → List InputEvent → List MgrEffect × Option (Option T)
  | _, [] => ([], none)
  | st, e :: rest =>
    let step := elem.handle_input st e
    if step.2.1 then
      ([MgrEffect.inputRead e] ++
        (if elem.completion_delay > 0 then [MgrEffect.sleepDelay elem.completion_delay] else []),
        some step.2.2)
    else
      let tail := managerLoop elem step.1 rest
      (MgrEffect.inputRead e :: MgrEffect.setContent (elem.get_lines step.1) :: tail.1, tail.2)

/-- `FooterElementManager.run`: the re-entrancy precondition, the
self-managed shortcut, and the standard activate/render/flush/loop/cleanup
path, as the trace of effects plus the post-state and the outcome.  When the
event list is exhausted mid-element the call is still awaiting input, so
`self._active` remains set and the `finally` block has not yet run. -/
def FooterElementManager.run {σ T : Type} (mgr : ManagerState) (elem : ElementImpl σ T)
    (events : List InputEvent) :
    List MgrEffect × ManagerState × ElementRunOutcome T :=
  if mgr.elementActive then
    ([], mgr, .errorAlreadyActive)
  else if elem.is_self_managed then
    ([.elemOnActivate, .elemRunAsync, .elemOnDeactivate],
      { mgr with elementActive := false }, .completed (some elem.run_async_result))
  else
    let pre : List MgrEffect :=
      [.elemOnActivate, .inputStart] ++
        (if mgr.footerActive then [] else [.footerActivate]) ++
        [.setContent (elem.get_lines elem.init), .inputFlush]
    let loop := managerLoop elem elem.init events
    match loop.2 with
    | some r =>
      (pre ++ loop.1 ++ [.inputStop, .elemOnDeactivate],
        { elementActive := false, footerActive := true }, .completed r)
    | none =>
      (pre ++ loop.1, { elementActive := true, footerActive := true }, .awaitingInput)

/-- A Space keypress. -/
def spaceEvent : InputEvent := { key := "Char", char := some [' '] }

/-- A minimal standard element over trivial state, used to exercise the
manager model on concrete inputs. -/
def trivialElement : ElementImpl Unit Unit where
  init := ()
  run_async_result := ()
  get_lines := fun _ => []
  handle_input := fun st _ => (st, true, none)

/-- The inductive invariant of `MessageList` under `add`/`clear`: every
message except the last is `COMPLETE`. -/
def frozenPrefix (ml : MessageList) : Prop :=
  ∀ m ∈ ml.messages.dropLast, m.status = .COMPLETE

/-- A concrete single-select menu over options `a`, `b` with `b`
highlighted. -/
def menuSingleSample : MenuSelect :=
  { options := ["a".toList, "b".toList], selected := 1 }

/-- A concrete multi-select menu over options `a`, `b`, `c` with `c`
highlighted and no index explicitly selected. -/
def menuMultiSample : MenuSelect :=
  { options := ["a".toList, "b".toList, "c".toList]
    selected := 2
    multi_select := true }

/-! ## Auxiliary lemmas -/

theorem freezeLastMessage_append (init : List UIMessage) (A : UIMessage) :
    freezeLastMessage (init ++ [A]) = init ++ [A.freeze] := by
  induction init with
  | nil => rfl
  | cons m rest ih =>
    cases rest with
    | nil => rfl
    | cons y ys =>
      simpa [freezeLastMessage] using ih

theorem freeze_status (m : UIMessage) : m.freeze.status = .COMPLETE := rfl

theorem freeze_input_handler (m : UIMessage) : m.freeze.input_handler = none := rfl

theorem freeze_no_transient (m : UIMessage) :
    (m.freeze.output_buffer.all fun r => !r.is_transient) = true := by
  simp only [UIMessage.freeze, UIMessage.clear_transient, List.all_eq_true]
  intro r hr
  exact (List.mem_filter.mp hr).2

theorem freezeLastMessage_all_complete (l : List UIMessage)
    (h : ∀ m ∈ l.dropLast, m.status = .COMPLETE) :
    ∀ m ∈ freezeLastMessage l, m.status = .COMPLETE := by
  induction l with
  | nil => intro m hm; cases hm
  | cons x rest ih =>
    cases rest with
    | nil =>
      intro m hm
      simp only [freezeLastMessage, List.mem_singleton] at hm
      subst hm
      exact freeze_status x
    | cons y ys =>
      intro m hm
      simp only [freezeLastMessage, List.mem_cons] at hm
      rcases hm with rfl | hm
      · exact h m (by simp [List.dropLast])
      · refine ih (fun m' hm' => h m' ?_) m hm
        simp only [List.dropLast, List.mem_cons]
        right
        exact hm'

theorem frozenPrefix_applyOp (ml : MessageList) (h : frozenPrefix ml) (op : MessageListOp) :
    frozenPrefix (ml.applyOp op) := by
  cases op with
  | clear => intro m hm; cases hm
  | add msg =>
    intro m hm
    simp only [MessageList.applyOp, MessageList.add, List.dropLast_concat] at hm
    exact freezeLastMessage_all_complete ml.messages h m hm

theorem frozenPrefix_applyOps (ml : MessageList) (h : frozenPrefix ml)
    (ops : List MessageListOp) : frozenPrefix (ml.applyOps ops) := by
  induction ops generalizing ml with
  | nil => exact h
  | cons op rest ih => exact ih (ml.applyOp op) (frozenPrefix_applyOp ml h op)

theorem frozenPrefix_filter_active (l : List UIMessage)
    (h : ∀ m ∈ l.dropLast, m.status = .COMPLETE) :
    (l.filter fun m => m.status == .ACTIVE).length ≤ 1 := by
  rcases List.eq_nil_or_concat l with rfl | ⟨l2, a, rfl⟩
  · simp
  · rw [List.concat_eq_append, List.filter_append, List.length_append]
    have h1 : (l2.filter fun m => m.status == .ACTIVE) = [] := by
      rw [List.filter_eq_nil_iff]
      intro m hm
      have hc := h m (by simpa [List.dropLast_concat] using hm)
      simp [hc]
    have h2 : (List.filter (fun m => m.status == .ACTIVE) [a]).length ≤ 1 := by
      have := List.length_filter_le (fun m => m.status == .ACTIVE) [a]
      simpa using this
    rw [h1]
    simpa using h2

/-! ## Claim theorems -/

/-- C3: adding message B to a MessageList whose last element is A freezes A —
A's status becomes COMPLETE, its input handler is removed and its buffer
keeps no transient item — and appends B with status ACTIVE as the new last
element. -/
theorem C3_add_freezes_previous_last (init : List UIMessage) (A B : UIMessage) :
    (MessageList.add { messages := init ++ [A] } B).messages =
      init ++ [A.freeze, { B with status := .ACTIVE }]
    ∧ A.freeze.status = .COMPLETE
    ∧ A.freeze.input_handler = none
    ∧ (A.freeze.output_buffer.all fun r => !r.is_transient) = true
    ∧ (MessageList.add { messages := init ++ [A] } B).get_active =
        some { B with status := .ACTIVE } := by
  have hmsgs : (MessageList.add { messages := init ++ [A] } B).messages =
      init ++ [A.freeze, { B with status := .ACTIVE }] := by
    simp [MessageList.add, freezeLastMessage_append]
  refine ⟨hmsgs, freeze_status A, freeze_input_handler A, freeze_no_transient A, ?_⟩
  rw [MessageList.get_active, hmsgs]
  rw [show init ++ [A.freeze, { B with status := .ACTIVE }] =
    (init ++ [A.freeze]) ++ [{ B with status := .ACTIVE }] by simp]
  exact List.getLast?_concat _

/-- C4: starting from the empty MessageList, after any sequence of add and
clear operations at most one message has status ACTIVE, and no message other
than the last one is ACTIVE. -/
theorem C4_active_invariant (ops : List MessageListOp) :
    ((MessageList.applyOps {} ops).messages.filter fun m => m.status == .ACTIVE).length ≤ 1
    ∧ ((MessageList.applyOps {} ops).messages.dropLast.all fun m =>
        m.status != .ACTIVE) = true := by
  have hfro : frozenPrefix (MessageList.applyOps {} ops) :=
    frozenPrefix_applyOps {} (by intro m hm; cases hm) ops
  constructor
  · exact frozenPrefix_filter_active _ hfro
  · rw [List.all_eq_true]
    intro m hm
    have hc := hfro m hm
    simp [hc]

theorem filter_not_transient_freeze (m : UIMessage) :
    m.freeze.output_buffer.filter (fun r => !r.is_transient) = m.freeze.output_buffer := by
  simp only [UIMessage.freeze, UIMessage.clear_transient, List.filter_filter]
  simp

/-- C5 counterexample: a `UIMessage` whose status is `COMPLETE` is not
immutable — `append` changes its output buffer, and `set_transient` even
re-introduces a transient item while the status stays `COMPLETE`. -/
theorem C5_counterexample :
    (({ status := .COMPLETE } : UIMessage).status = .COMPLETE)
    ∧ (UIMessage.append { status := .COMPLETE } (.ofString ['x']) []).output_buffer ≠
        ({ status := .COMPLETE } : UIMessage).output_buffer
    ∧ ((UIMessage.set_transient { status := .COMPLETE } (.ofString ['s']) []).output_buffer.any
        fun r => r.is_transient) = true
    ∧ (UIMessage.set_transient { status := .COMPLETE } (.ofString ['s']) []).status =
        .COMPLETE := by
  decide

/-- C5 amended: `freeze` marks the message COMPLETE, removes the input
handler and leaves no transient item, and `clear_transient` afterwards is a
no-op; but the buffer operations are unguarded, so `append` and
`set_transient` still modify a COMPLETE message's buffer. -/
theorem C5_freeze_establishes_no_transient (m : UIMessage) (content : RenderContent)
    (style : Str) :
    m.freeze.status = .COMPLETE
    ∧ m.freeze.input_handler = none
    ∧ (m.freeze.output_buffer.all fun r => !r.is_transient) = true
    ∧ m.freeze.clear_transient = m.freeze
    ∧ (m.freeze.append content style).output_buffer =
        m.freeze.output_buffer ++ [{ content := content, style := style }]
    ∧ (m.freeze.set_transient content style).output_buffer =
        m.freeze.output_buffer ++ [{ content := content, style := style, is_transient := true }] := by
  refine ⟨freeze_status m, freeze_input_handler m, freeze_no_transient m, ?_, rfl, ?_⟩
  · simp [UIMessage.clear_transient, filter_not_transient_freeze]
  · simp [UIMessage.set_transient, filter_not_transient_freeze]

theorem getD_last_of_getLast? (l : Str) (c d : Char) (h : l.getLast? = some c) :
    l.getD (l.length - 1) d = c := by
  have hmem : c ∈ l.getLast? := by rw [h]; rfl
  have hl : l.dropLast ++ [c] = l := List.dropLast_append_getLast? c hmem
  have hlen : l.length = l.dropLast.length + 1 := by
    conv_lhs => rw [← hl]
    simp
  have h2 : l.getD (l.length - 1) d = (l.dropLast ++ [c]).getD l.dropLast.length d := by
    rw [hl, hlen, Nat.add_sub_cancel]
  rw [h2, List.getD_eq_getElem?_getD, List.getElem?_concat_length]
  rfl

/-- C6: with multi-line allowed, Enter on a buffer whose last character is a
backslash (cursor at the end) does not complete the prompt: it deletes the
backslash and inserts a literal newline; Enter with the cursor at the end of
a buffer not ending in a backslash completes with the buffer as result. -/
theorem C6_backslash_enter_inserts_newline :
    (∀ s : MultiLinePrompt, s.allow_multiline = true →
      s.cursor_pos = s.buffer.length →
      s.buffer.getLast? = some '\\' →
      s.handle_input enterEvent =
        ({ s with buffer := s.buffer.dropLast ++ ['\n'] }, false, none))
    ∧ (∀ s : MultiLinePrompt, s.cursor_pos = s.buffer.length →
      s.buffer.getLast? ≠ some '\\' →
      s.handle_input enterEvent =
        ({ s with buffer := [], cursor_pos := 0 }, true, some s.buffer)) := by
  constructor
  · intro s hml hc hlast
    have hne : s.buffer ≠ [] := by
      intro h0
      rw [h0] at hlast
      simp at hlast
    have hlen : 0 < s.buffer.length := List.length_pos.mpr hne
    have hcpos : 0 < s.cursor_pos := by rw [hc]; exact hlen
    have hgetD : s.buffer.getD (s.cursor_pos - 1) ' ' = '\\' := by
      rw [hc]
      exact getD_last_of_getLast? _ _ _ hlast
    have hcond : (s.allow_multiline && s.cursor_pos == s.buffer.length &&
        decide (s.cursor_pos > 0) && (s.buffer.getD (s.cursor_pos - 1) ' ' == '\\')) = true := by
      rw [hml, hgetD, hc]
      simp [hlen]
    have step : s.handle_input enterEvent =
        (s.delete_before_cursor.insert_char ['\n'], false, none) := by
      show (if s.allow_multiline && s.cursor_pos == s.buffer.length &&
          decide (s.cursor_pos > 0) && (s.buffer.getD (s.cursor_pos - 1) ' ' == '\\') then
          (s.delete_before_cursor.insert_char ['\n'], false, none)
        else ({ s with buffer := [], cursor_pos := 0 }, true, some s.buffer)) =
          (s.delete_before_cursor.insert_char ['\n'], false, none)
      rw [if_pos hcond]
    rw [step]
    have hdel : s.delete_before_cursor =
        { s with buffer := s.buffer.dropLast, cursor_pos := s.cursor_pos - 1 } := by
      rw [MultiLinePrompt.delete_before_cursor, if_pos hcpos]
      rw [hc, List.drop_length, List.append_nil, ← List.dropLast_eq_take]
    rw [hdel]
    have htake : s.buffer.dropLast.take (s.cursor_pos - 1) = s.buffer.dropLast := by
      apply List.take_of_length_le
      rw [hc]
      simp
    have hdrop : s.buffer.dropLast.drop (s.cursor_pos - 1) = [] := by
      apply List.drop_eq_nil_of_le
      rw [hc]
      simp
    rw [MultiLinePrompt.insert_char]
    simp only [htake, hdrop, List.append_nil, List.length_singleton]
    have hcur : s.cursor_pos - 1 + 1 = s.cursor_pos := Nat.succ_pred_eq_of_pos hcpos
    rw [hcur]
  · intro s hc hlast
    have hcond : (s.allow_multiline && s.cursor_pos == s.buffer.length &&
        decide (s.cursor_pos > 0) && (s.buffer.getD (s.cursor_pos - 1) ' ' == '\\')) = false := by
      rcases Decidable.em (s.buffer = []) with h0 | h0
      · have hz : s.cursor_pos = 0 := by rw [hc, h0]; rfl
        simp [hz]
      · have hlast2 : s.buffer.getLast? = some (s.buffer.getLast h0) :=
          List.getLast?_eq_getLast_of_ne_nil h0
        have hgetD : s.buffer.getD (s.cursor_pos - 1) ' ' = s.buffer.getLast h0 := by
          rw [hc]
          exact getD_last_of_getLast? _ _ _ hlast2
        have hne2 : s.buffer.getLast h0 ≠ '\\' := by
          intro heq
          exact hlast (by rw [hlast2, heq])
        rw [hgetD]
        simp [hne2]
    show (if s.allow_multiline && s.cursor_pos == s.buffer.length &&
        decide (s.cursor_pos > 0) && (s.buffer.getD (s.cursor_pos - 1) ' ' == '\\') then
        (s.delete_before_cursor.insert_char ['\n'], false, none)
      else ({ s with buffer := [], cursor_pos := 0 }, true, some s.buffer)) =
        ({ s with buffer := [], cursor_pos := 0 }, true, some s.buffer)
    rw [if_neg (by rw [hcond]; decide)]

/-- C6 witness: the spec's end-to-end scenario, buffer `"line1\"` then
`"line1\nline2"`. -/
theorem C6_witness :
    (({ buffer := "line1\\".toList, cursor_pos := 6 } : MultiLinePrompt).allow_multiline = true)
    ∧ (({ buffer := "line1\\".toList, cursor_pos := 6 } : MultiLinePrompt).cursor_pos =
        ("line1\\".toList : Str).length)
    ∧ (({ buffer := "line1\\".toList, cursor_pos := 6 } : MultiLinePrompt).handle_input
        enterEvent =
        (({ buffer := "line1\n".toList, cursor_pos := 6 } : MultiLinePrompt), false, none))
    ∧ (({ buffer := "line1\nline2".toList, cursor_pos := 11 } : MultiLinePrompt).handle_input
        enterEvent =
        (({ buffer := [], cursor_pos := 0 } : MultiLinePrompt), true,
          some "line1\nline2".toList)) := by
  refine ⟨rfl, by decide, ?_, ?_⟩
  · exact (C6_backslash_enter_inserts_newline.1 _ rfl (by decide) (by decide)).trans (by decide)
  · exact (C6_backslash_enter_inserts_newline.2 _ (by decide) (by decide)).trans (by decide)

/-- C7 counterexample: `TextPrompt` and `MultiLinePrompt` do not override
`completion_delay`, so they return the inherited 0.15-second default, not
0. -/
theorem C7_counterexample :
    ({} : TextPrompt).completion_delay = 0.15
    ∧ ({} : MultiLinePrompt).completion_delay = 0.15
    ∧ (0.15 : ℚ) ≠ 0 := by
  refine ⟨rfl, rfl, by norm_num⟩

/-- C7 amended: every element class under `cli/elements/` — the choice
elements and also the free-text prompts — returns the inherited default of
0.15 seconds from `completion_delay()`. -/
theorem C7_all_elements_default_delay (t : TextPrompt) (m : MultiLinePrompt)
    (c : ConfirmPrompt) (ms : MenuSelect) (cm : CancellationMenu) :
    t.completion_delay = 0.15
    ∧ m.completion_delay = 0.15
    ∧ c.completion_delay = 0.15
    ∧ ms.completion_delay = 0.15
    ∧ cm.completion_delay = 0.15 :=
  ⟨rfl, rfl, rfl, rfl, rfl⟩

/-- C8: whatever the highlighted index, Escape completes the cancellation
menu with `UNDO_ALL`, and the characters r/R, s/S, k/K, u/U complete it with
`RETRY`, `SKIP`, `KEEP_COMPLETED` and `UNDO_ALL` respectively. -/
theorem C8_cancellation_menu_shortcuts (m : CancellationMenu) (c : Char) :
    m.handle_input escapeEvent = (m, true, some .UNDO_ALL)
    ∧ ((c = 'r' ∨ c = 'R') → m.handle_input (charEvent c) = (m, true, some .RETRY))
    ∧ ((c = 's' ∨ c = 'S') → m.handle_input (charEvent c) = (m, true, some .SKIP))
    ∧ ((c = 'k' ∨ c = 'K') → m.handle_input (charEvent c) = (m, true, some .KEEP_COMPLETED))
    ∧ ((c = 'u' ∨ c = 'U') → m.handle_input (charEvent c) = (m, true, some .UNDO_ALL)) := by
  refine ⟨rfl, ?_, ?_, ?_, ?_⟩ <;> rintro (rfl | rfl) <;> rfl

/-- C8 witness: shortcuts and Escape on a concrete menu. -/
theorem C8_witness :
    ({} : CancellationMenu).handle_input escapeEvent = ({}, true, some .UNDO_ALL)
    ∧ ('r' = 'r' ∨ 'r' = 'R')
    ∧ ({} : CancellationMenu).handle_input (charEvent 'r') = ({}, true, some .RETRY)
    ∧ ({} : CancellationMenu).handle_input (charEvent 'S') = ({}, true, some .SKIP)
    ∧ ({} : CancellationMenu).handle_input (charEvent 'k') = ({}, true, some .KEEP_COMPLETED)
    ∧ ({} : CancellationMenu).handle_input (charEvent 'U') = ({}, true, some .UNDO_ALL) :=
  ⟨(C8_cancellation_menu_shortcuts {} 'r').1, Or.inl rfl,
    (C8_cancellation_menu_shortcuts {} 'r').2.1 (Or.inl rfl),
    (C8_cancellation_menu_shortcuts {} 'S').2.2.1 (Or.inr rfl),
    (C8_cancellation_menu_shortcuts {} 'k').2.2.2.1 (Or.inl rfl),
    (C8_cancellation_menu_shortcuts {} 'U').2.2.2.2 (Or.inr rfl)⟩

theorem filter_range_decide_eq (n k : ℕ) (h : k < n) :
    (List.range n).filter (fun i => decide (i = k)) = [k] := by
  induction n with
  | zero => omega
  | succ n ih =>
    rw [List.range_succ, List.filter_append]
    rcases Nat.lt_or_ge k n with hk | hk
    · rw [ih hk]
      have h2 : (List.filter (fun i => decide (i = k)) [n]) = [] := by
        have : n ≠ k := by omega
        simp [this]
      rw [h2, List.append_nil]
    · have hkn : k = n := by omega
      subst hkn
      have h1 : (List.range k).filter (fun i => decide (i = k)) = [] := by
        rw [List.filter_eq_nil_iff]
        intro a ha
        have := List.mem_range.mp ha
        simp
        omega
      rw [h1]
      simp

/-- C9: on a non-empty option list, single-select Enter completes with the
highlighted option; multi-select Space toggles membership of the highlighted
index without completing; multi-select Enter completes with the options at
the selected indices, defaulting to the highlighted option when none was
explicitly selected; Escape completes with no result. -/
theorem C9_menu_select (s : MenuSelect) (hne : s.options ≠ [])
    (hsel : s.selected < s.options.length) :
    (s.multi_select = false →
      s.handle_input enterEvent = (s, true, some (.one (s.options.get ⟨s.selected, hsel⟩))))
    ∧ (s.multi_select = true →
        (s.handle_input spaceEvent).2.1 = false
        ∧ (s.handle_input spaceEvent).1.selected_indices =
            (if s.selected ∈ s.selected_indices then s.selected_indices.erase s.selected
              else insert s.selected s.selected_indices))
    ∧ (s.multi_select = true →
        (s.handle_input enterEvent).2.1 = true
        ∧ (s.selected_indices = ∅ →
            (s.handle_input enterEvent).2.2 =
              some (.many [s.options.get ⟨s.selected, hsel⟩]))
        ∧ (s.selected_indices ≠ ∅ →
            (s.handle_input enterEvent).2.2 = some (.many
              (((List.range s.options.length).filter fun i =>
                  decide (i ∈ s.selected_indices)).map fun i => s.options.getD i []))))
    ∧ s.handle_input escapeEvent = (s, true, none) := by
  have hoptsne : s.options.isEmpty = false := by
    rcases hopt : s.options with _ | ⟨a, l⟩
    · exact absurd hopt hne
    · rfl
  have hgd : s.options.getD s.selected [] = s.options.get ⟨s.selected, hsel⟩ := by
    rw [List.getD_eq_getElem?_getD, List.getElem?_eq_getElem hsel]
    rfl
  refine ⟨?_, ?_, ?_, rfl⟩
  · intro hms
    simp [MenuSelect.handle_input, enterEvent, hoptsne, hms, hgd]
    rw [List.getElem?_eq_getElem hsel]
    rfl
  · intro hms
    constructor
    · by_cases hmem : s.selected ∈ s.selected_indices <;>
        simp [MenuSelect.handle_input, spaceEvent, hms, hmem]
    · by_cases hmem : s.selected ∈ s.selected_indices <;>
        simp [MenuSelect.handle_input, spaceEvent, hms, hmem]
  · intro hms
    refine ⟨?_, ?_, ?_⟩
    · simp [MenuSelect.handle_input, enterEvent, hoptsne, hms]
    · intro hempty
      simp [MenuSelect.handle_input, enterEvent, hoptsne, hms, hempty]
      rw [filter_range_decide_eq s.options.length s.selected hsel]
      simp
      rw [List.getElem?_eq_getElem hsel]
      rfl
    · intro hnonempty
      simp [MenuSelect.handle_input, enterEvent, hoptsne, hms, hnonempty]

/-- C9 witness: a concrete single-select menu on `["a","b"]` with `"b"`
highlighted, and a concrete multi-select menu on `["a","b","c"]` with `"c"`
highlighted and nothing explicitly selected. -/
theorem C9_witness :
    (menuSingleSample.options ≠ []
      ∧ menuSingleSample.selected < menuSingleSample.options.length)
    ∧ menuSingleSample.handle_input enterEvent =
        (menuSingleSample, true, some (.one "b".toList))
    ∧ (menuMultiSample.handle_input spaceEvent).1.selected_indices =
        insert 2 (∅ : Finset ℕ)
    ∧ (menuMultiSample.handle_input enterEvent).2.2 = some (.many ["c".toList])
    ∧ menuMultiSample.handle_input escapeEvent = (menuMultiSample, true, none) := by
  have h1 := C9_menu_select menuSingleSample (by decide) (by decide)
  have h2 := C9_menu_select menuMultiSample (by decide) (by decide)
  refine ⟨⟨by decide, by decide⟩, ?_, ?_, ?_, h2.2.2.2⟩
  · exact (h1.1 rfl).trans (by decide)
  · exact ((h2.2.1 rfl).2).trans (by decide)
  · exact ((h2.2.2.1 rfl).2.1 rfl).trans (by decide)

/-- C10: on any prompt state with the cursor inside the buffer, Ctrl+K (kill
to end of line) immediately followed by Ctrl+Y (yank) restores the original
buffer, including when the killed region is empty. -/
theorem C10_kill_yank_restores_buffer :
    (∀ s : TextPrompt, s.cursor_pos ≤ s.buffer.length →
      ((s.handle_input (ctrlEvent 'k')).1.handle_input (ctrlEvent 'y')).1.buffer = s.buffer)
    ∧ (∀ s : MultiLinePrompt, s.cursor_pos ≤ s.buffer.length →
      ((s.handle_input (ctrlEvent 'k')).1.handle_input (ctrlEvent 'y')).1.buffer =
        s.buffer) := by
  constructor
  · intro s h
    have hk : (s.handle_input (ctrlEvent 'k')).1 =
        { s with kill_buffer := s.buffer.drop s.cursor_pos
                 buffer := s.buffer.take s.cursor_pos } := rfl
    rw [hk]
    by_cases hd : (s.buffer.drop s.cursor_pos).isEmpty
    · have hdrop : s.buffer.drop s.cursor_pos = [] := by
        rwa [List.isEmpty_iff] at hd
      have htake : s.buffer.take s.cursor_pos = s.buffer :=
        List.take_of_length_le (List.drop_eq_nil_iff.mp hdrop)
      simp [TextPrompt.handle_input, ctrlEvent, hd, htake]
    · have hlen : (s.buffer.take s.cursor_pos).length = s.cursor_pos := by
        rw [List.length_take]
        omega
      simp [TextPrompt.handle_input, ctrlEvent, hd, TextPrompt.insert_char]
      rw [List.take_of_length_le (le_of_eq hlen), List.drop_eq_nil_of_le (le_of_eq hlen)]
      simp [List.take_append_drop]
  · intro s h
    have hk : (s.handle_input (ctrlEvent 'k')).1 =
        { s with kill_buffer := s.buffer.drop s.cursor_pos
                 buffer := s.buffer.take s.cursor_pos } := rfl
    rw [hk]
    by_cases hd : (s.buffer.drop s.cursor_pos).isEmpty
    · have hdrop : s.buffer.drop s.cursor_pos = [] := by
        rwa [List.isEmpty_iff] at hd
      have htake : s.buffer.take s.cursor_pos = s.buffer :=
        List.take_of_length_le (List.drop_eq_nil_iff.mp hdrop)
      simp [MultiLinePrompt.handle_input, ctrlEvent, hd, htake]
    · have hlen : (s.buffer.take s.cursor_pos).length = s.cursor_pos := by
        rw [List.length_take]
        omega
      simp [MultiLinePrompt.handle_input, ctrlEvent, hd, MultiLinePrompt.insert_char]
      rw [List.take_of_length_le (le_of_eq hlen), List.drop_eq_nil_of_le (le_of_eq hlen)]
      simp [List.take_append_drop]

/-- C10 witness: kill/yank on `"hello"` with the cursor in the middle, and on
`"ab"` with the cursor at the end (empty killed region). -/
theorem C10_witness :
    ((2 : Nat) ≤ ("hello".toList : Str).length ∧
      ((({ buffer := "hello".toList, cursor_pos := 2 } : TextPrompt).handle_input
          (ctrlEvent 'k')).1.handle_input (ctrlEvent 'y')).1.buffer = "hello".toList)
    ∧ ((2 : Nat) ≤ ("ab".toList : Str).length ∧
      ((({ buffer := "ab".toList, cursor_pos := 2 } : MultiLinePrompt).handle_input
          (ctrlEvent 'k')).1.handle_input (ctrlEvent 'y')).1.buffer = "ab".toList) :=
  ⟨⟨by decide, C10_kill_yank_restores_buffer.1 _ (by decide)⟩,
    ⟨by decide, C10_kill_yank_restores_buffer.2 _ (by decide)⟩⟩

/-- C2: once `cancel()` has been called with no `reset()` since, the flag is
set and `run` raises the cancellation error immediately without starting the
work; on a non-cancelled token `run` starts the work as a tracked task,
records it as the current task while awaiting, clears the tracking when the
await finishes — whether by success, failure or abort — and surfaces the
corresponding outcome. -/
theorem C2_cancellation_token_run (t : CancellationToken) (w : Work) :
    (t.cancelled = true →
      t.run w = { started := false
                  duringToken := t
                  result := .cancelledBeforeStart
                  finalToken := t })
    ∧ (t.cancelled = false →
        (t.run w).started = true
        ∧ (t.run w).duringToken.current_task = some w.taskId
        ∧ (t.run w).finalToken.current_task = none
        ∧ (t.run w).result = (match w.outcome with
            | .success v => RunResult.ok v
            | .failure => .exn
            | .aborted => .abortedInFlight))
    ∧ (∀ (t0 : CancellationToken) (l r : List TokenOp), TokenOp.reset ∉ r →
        (t0.applyOps (l ++ TokenOp.cancel :: r)).cancelled = true) := by
  refine ⟨?_, ?_, ?_⟩
  · intro hc
    simp [CancellationToken.run, hc]
  · intro hc
    simp [CancellationToken.run, hc]
  · intro t0 l r hr
    rw [CancellationToken.applyOps, List.foldl_append, List.foldl_cons]
    have key : ∀ (r2 : List TokenOp), TokenOp.reset ∉ r2 → ∀ (t2 : CancellationToken),
        t2.cancelled = true →
        (List.foldl CancellationToken.applyOp t2 r2).cancelled = true := by
      intro r2
      induction r2 with
      | nil =>
        intro _ t2 h2
        exact h2
      | cons op rest ih =>
        intro hmem t2 h2
        rw [List.foldl_cons]
        cases op with
        | cancel =>
          exact ih (fun hm => hmem (List.mem_cons_of_mem _ hm)) _ rfl
        | reset =>
          exact absurd (List.mem_cons_self _ _) hmem
    exact key r hr _ rfl

/-- C2 witness: a cancelled token refuses the work; a fresh token runs it,
tracks it and untracks it; `cancel` with no later `reset` leaves the flag
set. -/
theorem C2_witness :
    (({ cancelled := true } : CancellationToken).cancelled = true
      ∧ ({ cancelled := true } : CancellationToken).run { taskId := 7 } =
          { started := false
            duringToken := { cancelled := true }
            result := .cancelledBeforeStart
            finalToken := { cancelled := true } })
    ∧ (({} : CancellationToken).cancelled = false
      ∧ ((({} : CancellationToken).run { taskId := 7 }).started = true
        ∧ (({} : CancellationToken).run { taskId := 7 }).duringToken.current_task = some 7
        ∧ (({} : CancellationToken).run { taskId := 7 }).finalToken.current_task = none
        ∧ (({} : CancellationToken).run { taskId := 7 }).result = .ok 0))
    ∧ (TokenOp.reset ∉ [TokenOp.cancel]
      ∧ (CancellationToken.applyOps {} ([TokenOp.cancel] ++ TokenOp.cancel ::
          [TokenOp.cancel])).cancelled = true) := by
  have h1 := C2_cancellation_token_run { cancelled := true } { taskId := 7 }
  have h2 := C2_cancellation_token_run {} ({ taskId := 7 } : Work)
  refine ⟨⟨rfl, h1.1 rfl⟩, ⟨rfl, ?_⟩, by decide, h2.2.2 {} [TokenOp.cancel] [TokenOp.cancel]
    (by decide)⟩
  have h3 := h2.2.1 rfl
  exact ⟨h3.1, h3.2.1, h3.2.2.1, h3.2.2.2⟩

/-- C1: calling the element manager's `run` while another element is active
raises the re-entrancy error immediately — the effect trace is empty, so the
new element is not activated and no input is read — and the call neither
queues nor ignores the element (its outcome is the error, and the manager
state is unchanged). -/
theorem C1_run_reentrancy_error {σ T : Type} (mgr : ManagerState) (elem : ElementImpl σ T)
    (events : List InputEvent) (h : mgr.elementActive = true) :
    FooterElementManager.run mgr elem events = ([], mgr, .errorAlreadyActive) := by
  simp [FooterElementManager.run, h]

/-- C1 witness: a first `run` that is still awaiting input leaves the element
marked active, and a second `run` in that state fails with the empty trace. -/
theorem C1_witness :
    (FooterElementManager.run {} trivialElement []).2.1 =
      { elementActive := true, footerActive := true }
    ∧ ({ elementActive := true, footerActive := true } : ManagerState).elementActive = true
    ∧ FooterElementManager.run { elementActive := true, footerActive := true }
        trivialElement [enterEvent] =
        ([], { elementActive := true, footerActive := true }, .errorAlreadyActive) :=
  ⟨rfl, rfl, C1_run_reentrancy_error _ trivialElement [enterEvent] rfl⟩

end NanoAgent
